import Mathlib

/-!
Verification of the Reading Classification and History Engine of the
Daily Sugar Guidance dashboard (src/app.py).  The engine is shallowly
embedded: the reading contexts, the threshold table, the submit-handler
band logic, and the CSV-backed history store (modelled as an optional
list of raw rows, `none` meaning the backing file does not exist and a
row with a missing context field modelling the legacy schema without the
`reading_type` column).
-/

namespace SugarApp

/-- The five reading contexts (the values of READING_TYPES in app.py). -/
inductive Ctx
| fasting
| post_breakfast
| post_lunch
| post_dinner
| random
deriving DecidableEq

/-- Human-readable display names (the keys of READING_TYPES in app.py). -/
def readingTypeDisplay : Ctx → String
| .fasting => "Fasting (Empty Stomach)"
| .post_breakfast => "After Breakfast"
| .post_lunch => "After Lunch"
| .post_dinner => "After Dinner"
| .random => "Random"

/-- One threshold band entry (the per-context dict in THRESHOLDS). -/
structure ThresholdBand where
  low : Int
  normal_max : Int
  borderline_max : Int
  warning : Int
deriving DecidableEq

/-- The THRESHOLDS table of app.py (lines 34-40). -/
def THRESHOLDS : Ctx → ThresholdBand
| .fasting => ⟨70, 100, 125, 126⟩
| .post_breakfast => ⟨80, 140, 160, 161⟩
| .post_lunch => ⟨80, 140, 160, 161⟩
| .post_dinner => ⟨80, 140, 160, 161⟩
| .random => ⟨70, 120, 140, 141⟩

/-- The full classification result assembled by the submit handler
(status, color, meaning, diet lists, activity, focus). -/
structure ClassificationResult where
  status : String
  color : String
  meaning : String
  diet_yes : List String
  diet_no : List String
  activity : String
  focus : String
deriving DecidableEq

/-- The band logic of the submit handler (app.py lines 272-319): the
if/elif chain on `sugar` against the context's thresholds.  The leading
`sugar < 40` branch is kept even though the caller short-circuits
emergencies before reaching this code. -/
def classifyBands (sugar : Int) (ctx : Ctx) : ClassificationResult :=
  let threshold := THRESHOLDS ctx
  let disp := (readingTypeDisplay ctx).toLower
  if sugar < 40 then
    { status := "CRITICAL LOW", color := "🔴"
      meaning := "Your blood sugar is dangerously low. Seek immediate medical help."
      diet_yes := ["Take a fast-acting sugar source immediately."]
      diet_no := []
      activity := "Avoid any physical activity."
      focus := "Restore blood sugar immediately." }
  else if sugar < threshold.low then
    { status := "LOW", color := "🔴"
      meaning := "Your blood sugar is below the normal range for " ++ disp ++ "."
      diet_yes := ["Take a quick sugar source such as juice or glucose."]
      diet_no := []
      activity := "Avoid physical activity."
      focus := "Restore blood sugar safely." }
  else if sugar ≤ threshold.normal_max then
    { status := "NORMAL", color := "🟢"
      meaning := "Your blood sugar is within the healthy range for " ++ disp ++ "."
      diet_yes := ["Continue balanced home-cooked meals."]
      diet_no := ["Avoid excess sugar."]
      activity := "15–20 minutes of light walking."
      focus := "Maintain a healthy routine." }
  else if sugar ≤ threshold.borderline_max then
    { status := "BORDERLINE", color := "🟡"
      meaning := "Your blood sugar is slightly elevated for " ++ disp ++ "."
      diet_yes := ["Prefer light meals."]
      diet_no := ["Reduce sugar and refined carbohydrates."]
      activity := "20 minutes of walking."
      focus := "Improve sugar control." }
  else
    { status := "HIGH", color := "🔴"
      meaning := "Your blood sugar is high for " ++ disp ++ ". Medical attention may be needed if this persists."
      diet_yes := ["Eat light, home-cooked meals."]
      diet_no := ["Avoid sweets, sugary drinks, and high-carb foods."]
      activity := "25–30 minutes of light to moderate walking."
      focus := "Reduce sugar levels safely." }

/-- A raw persisted row: `reading_type = none` models a legacy row from
a CSV that lacks the reading_type column. -/
structure RawRow where
  datetime : String
  reading_type : Option Ctx
  sugar : Int
deriving DecidableEq

/-- A normalized in-memory reading (context always present). -/
structure Reading where
  datetime : String
  reading_type : Ctx
  sugar : Int
deriving DecidableEq

/-- The backwards-compatibility repair applied on every load path:
a row with a missing reading_type defaults to `random`. -/
def normalizeRow (r : RawRow) : Reading :=
  ⟨r.datetime, r.reading_type.getD .random, r.sugar⟩

/-- Conversion back to a raw row when the log is written out (the write
always emits the reading_type column). -/
def rawOfReading (r : Reading) : RawRow :=
  ⟨r.datetime, some r.reading_type, r.sugar⟩

/-- The persistence medium: `none` means sugar_history.csv does not
exist; `some rows` is the stored log in file order. -/
abbrev Store := Option (List RawRow)

/-- The full normalized log as every read path sees it (missing file
reads as an empty log). -/
def loadNormalized (store : Store) : List Reading :=
  match store with
  | none => []
  | some raw => raw.map normalizeRow

/-- save_sugar_history (app.py lines 45-62): read the existing log if
present, apply the backwards-compatibility default, append the new row,
write everything back; otherwise write just the new row. -/
def save_sugar_history (store : Store) (timestamp : String) (sugar_value : Int)
    (reading_type : Ctx) : Store :=
  let new_data : RawRow := ⟨timestamp, some reading_type, sugar_value⟩
  match store with
  | some old_data =>
      some ((old_data.map fun r => rawOfReading (normalizeRow r)) ++ [new_data])
  | none => some [new_data]

/-- The comparison message of get_smart_insight for the last two values
(today = last row, yesterday = second-to-last). -/
def insightOfLastTwo (today_value yesterday_value : Int) : String :=
  if today_value < yesterday_value then
    "Good progress. Today's sugar is lower than yesterday by " ++
      toString (yesterday_value - today_value) ++ " mg/dL."
  else if today_value > yesterday_value then
    "Attention needed. Today's sugar is higher than yesterday by " ++
      toString (today_value - yesterday_value) ++ " mg/dL."
  else
    "Your sugar level is the same as yesterday. Maintain your routine."

/-- get_smart_insight (app.py lines 68-89).  Note the reading_type
argument is accepted but never used: the last two rows of the whole log
are compared. -/
def get_smart_insight (store : Store) (reading_type : Ctx) : String :=
  match store with
  | none => "No history available yet."
  | some raw =>
      let data := raw.map normalizeRow
      match data.reverse with
      | today :: yesterday :: _ => insightOfLastTwo today.sugar yesterday.sugar
      | _ => "This is your first entry. Add more daily values to see comparisons."

/-- The per-bar severity color of show_sugar_trend (app.py lines
116-125): a fixed absolute band, not context dependent. -/
def trendColor (val : Int) : String :=
  if val < 70 then "red"
  else if 70 ≤ val ∧ val ≤ 100 then "green"
  else if 100 < val ∧ val ≤ 125 then "orange"
  else "red"

/-- The outcome of show_sugar_trend: missing file, fewer than two
retained rows, or a chart over the colored recent entries. -/
inductive TrendResult
| noData
| insufficient
| chart (bars : List (Reading × String))
deriving DecidableEq

/-- The bars of a chart outcome (empty for the two no-chart outcomes). -/
def TrendResult.bars : TrendResult → List (Reading × String)
| .chart b => b
| _ => []

/-- The data rows retained by show_sugar_trend: the normalized log,
filtered by reading type when a filter is given (app.py lines 99-107). -/
def trendData (raw : List RawRow) (filter_type : Option Ctx) : List Reading :=
  match filter_type with
  | some t => (raw.map normalizeRow).filter fun (r : Reading) => r.reading_type == t
  | none => raw.map normalizeRow

/-- show_sugar_trend (app.py lines 94-148): load, normalize, optionally
filter by reading type, require at least two rows, take the last 7 and
color each by the fixed absolute band. -/
def show_sugar_trend (store : Store) (filter_type : Option Ctx) : TrendResult :=
  match store with
  | none => .noData
  | some raw =>
      let data := trendData raw filter_type
      if data.length < 2 then .insufficient
      else
        let recent_data := data.drop (data.length - 7)
        .chart (recent_data.map fun r => (r, trendColor r.sugar))

/-- get_history_data (app.py lines 154-163): empty when the file does
not exist, otherwise the normalized tail of the log. -/
def get_history_data (store : Store) (limit : Nat) : List Reading :=
  match store with
  | none => []
  | some raw =>
      let data := raw.map normalizeRow
      data.drop (data.length - limit)

/-- The Status column of the Recent History table (app.py lines
451-460): the same fixed absolute bands as the trend chart, ignoring the
row's context. -/
def historyStatus (sugar_val : Int) : String :=
  if sugar_val < 70 then "🔴 Low"
  else if 70 ≤ sugar_val ∧ sugar_val ≤ 100 then "🟢 Normal"
  else if 100 < sugar_val ∧ sugar_val ≤ 125 then "🟡 Borderline"
  else "🔴 High"

/-- The outcome of one submission as the submit handler renders it. -/
inductive SubmitOutcome
| invalid
| criticalLow
| extremelyHigh
| classified (r : ClassificationResult)
deriving DecidableEq

/-- The submit handler (app.py lines 252-334): reject non-positive
values before persisting, persist, short-circuit the two emergency
conditions, otherwise run the band logic. -/
def processSubmit (store : Store) (timestamp : String) (sugar : Int)
    (ctx : Ctx) : Store × SubmitOutcome :=
  if sugar ≤ 0 then (store, .invalid)
  else
    let store := save_sugar_history store timestamp sugar ctx
    if sugar < 40 then (store, .criticalLow)
    else if sugar > 400 then (store, .extremelyHigh)
    else (store, .classified (classifyBands sugar ctx))

/-- Appending a list of readings one by one through save_sugar_history. -/
def appendAll (store : Store) (rs : List Reading) : Store :=
  rs.foldl (fun s r => save_sugar_history s r.datetime r.sugar r.reading_type) store

/-- Normalization undoes the raw conversion used on write-back. -/
lemma normalizeRow_rawOfReading (r : Reading) : normalizeRow (rawOfReading r) = r := rfl

/-- Saving appends exactly one normalized reading to the normalized log. -/
lemma loadNormalized_save (store : Store) (ts : String) (v : Int) (c : Ctx) :
    loadNormalized (save_sugar_history store ts v c) = loadNormalized store ++ [⟨ts, c, v⟩] := by
  cases store with
  | none => rfl
  | some raw =>
      simp [save_sugar_history, loadNormalized, normalizeRow_rawOfReading,
        normalizeRow, rawOfReading, Function.comp_def]

/-- Saving a batch appends the batch to the normalized log. -/
lemma loadNormalized_appendAll (store : Store) (rs : List Reading) :
    loadNormalized (appendAll store rs) = loadNormalized store ++ rs := by
  induction rs generalizing store with
  | nil => simp [appendAll]
  | cons r rs ih =>
      simp only [appendAll, List.foldl_cons]
      rw [show (rs.foldl (fun s r => save_sugar_history s r.datetime r.sugar r.reading_type)
          (save_sugar_history store r.datetime r.sugar r.reading_type)) =
          appendAll (save_sugar_history store r.datetime r.sugar r.reading_type) rs from rfl,
        ih, loadNormalized_save]
      simp

/-- Reading the tail works on the normalized log. -/
lemma get_history_data_eq (store : Store) (n : Nat) :
    get_history_data store n =
      (loadNormalized store).drop ((loadNormalized store).length - n) := by
  cases store <;> simp [get_history_data, loadNormalized]

/-- C1: for the fasting context the band logic respects the exact band
boundaries: 69 is LOW, 70 and 100 are NORMAL, 101 and 125 are
BORDERLINE, 126 is HIGH. -/
theorem fasting_boundary_exactness :
    (classifyBands 69 .fasting).status = "LOW" ∧
    (classifyBands 70 .fasting).status = "NORMAL" ∧
    (classifyBands 100 .fasting).status = "NORMAL" ∧
    (classifyBands 101 .fasting).status = "BORDERLINE" ∧
    (classifyBands 125 .fasting).status = "BORDERLINE" ∧
    (classifyBands 126 .fasting).status = "HIGH" := by
  refine ⟨rfl, rfl, rfl, rfl, rfl, rfl⟩

/-- C2: for every context and every value v with 40 ≤ v ≤ 400, the band
logic yields a status among LOW, NORMAL, BORDERLINE, HIGH, and the whole
classification result is a pure function of (v, context). -/
theorem classify_total_and_pure (v : Int) (ctx : Ctx) (h1 : 40 ≤ v) (h2 : v ≤ 400) :
    ((classifyBands v ctx).status = "LOW" ∨ (classifyBands v ctx).status = "NORMAL" ∨
     (classifyBands v ctx).status = "BORDERLINE" ∨ (classifyBands v ctx).status = "HIGH") ∧
    (∀ v2 ctx2, v2 = v → ctx2 = ctx → classifyBands v2 ctx2 = classifyBands v ctx) := by
  constructor
  · cases ctx <;> simp only [classifyBands, THRESHOLDS] <;> split_ifs <;>
      first | omega | simp
  · intro v2 ctx2 hv hc
    rw [hv, hc]

/-- C2 witness: instantiated at v = 100 in the fasting context. -/
theorem classify_total_and_pure_witness :
    (40:Int) ≤ 100 ∧ (100:Int) ≤ 400 ∧
    ((classifyBands 100 .fasting).status = "LOW" ∨
     (classifyBands 100 .fasting).status = "NORMAL" ∨
     (classifyBands 100 .fasting).status = "BORDERLINE" ∨
     (classifyBands 100 .fasting).status = "HIGH") :=
  ⟨by decide, by decide,
    (classify_total_and_pure 100 .fasting (by decide) (by decide)).1⟩

/-- C3: a positive value below 40 or above 400 is still persisted by the
submit handler (the saved log gains exactly that reading), but the band
classification is skipped for a terminal advisory: 39 takes the
critical-low path and 401 the extremely-high path for every context. -/
theorem emergency_submit (store : Store) (ts : String) (v : Int) (ctx : Ctx)
    (hpos : 0 < v) :
    (v < 40 ∨ 400 < v →
      (processSubmit store ts v ctx).1 = save_sugar_history store ts v ctx ∧
      loadNormalized (processSubmit store ts v ctx).1 =
        loadNormalized store ++ [⟨ts, ctx, v⟩] ∧
      ∀ r, (processSubmit store ts v ctx).2 ≠ .classified r) ∧
    (v = 39 → (processSubmit store ts v ctx).2 = .criticalLow) ∧
    (v = 401 → (processSubmit store ts v ctx).2 = .extremelyHigh) := by
  have hnp : ¬ v ≤ 0 := by omega
  refine ⟨?_, ?_, ?_⟩
  · rintro (hlo | hhi)
    · have h40 : v < 40 := hlo
      simp [processSubmit, hnp, h40, loadNormalized_save]
    · have h40 : ¬ v < 40 := by omega
      have h400 : 400 < v := hhi
      simp [processSubmit, hnp, h40, h400, loadNormalized_save]
  · rintro rfl
    simp [processSubmit]
  · rintro rfl
    simp [processSubmit]

/-- C3 witness: submitting 39 in the random context on an empty store
takes the critical-low path. -/
theorem emergency_submit_witness :
    (0:Int) < 39 ∧ (processSubmit none "t" 39 .random).2 = .criticalLow :=
  ⟨by decide, (emergency_submit none "t" 39 .random (by decide)).2.1 rfl⟩

/-- C4: a non-positive value is rejected before classification and
nothing is persisted: the store is unchanged and the outcome is the
validation failure. -/
theorem invalid_rejected (store : Store) (ts : String) (v : Int) (ctx : Ctx)
    (h : v ≤ 0) :
    processSubmit store ts v ctx = (store, .invalid) := by
  simp [processSubmit, h]

/-- C4 witness: submitting 0 on an empty store leaves it empty. -/
theorem invalid_rejected_witness :
    (0:Int) ≤ 0 ∧ processSubmit none "t" 0 .fasting = (none, .invalid) :=
  ⟨by decide, invalid_rejected none "t" 0 .fasting (by decide)⟩

/-- C5: appending k readings to any store and then reading the tail of
length k returns exactly those k readings in submission order, and the
tail of a nonexistent store is empty. -/
theorem append_tail_roundtrip (store : Store) (rs : List Reading) (n : Nat) :
    get_history_data (appendAll store rs) rs.length = rs ∧
    get_history_data none n = [] := by
  refine ⟨?_, rfl⟩
  rw [get_history_data_eq, loadNormalized_appendAll]
  rw [List.length_append, Nat.add_sub_cancel, List.drop_left]

/-- C6: the insight text does not depend on the context argument, only
on the last two entries of the entire log: any two contexts yield the
same text, and any two logs sharing the same last two rows do too. -/
theorem insight_context_independent (store : Store) (c1 c2 : Ctx)
    (pre1 pre2 : List RawRow) (y t : RawRow) :
    get_smart_insight store c1 = get_smart_insight store c2 ∧
    get_smart_insight (some (pre1 ++ [y, t])) c1 =
      get_smart_insight (some (pre2 ++ [y, t])) c2 := by
  refine ⟨rfl, ?_⟩
  simp [get_smart_insight]

/-- C7: the insight is the no-history message on a missing store, the
first-entry message on a single record, and otherwise compares the last
two records of the full log, citing the decrease, the increase, or
reporting no change; on records [100, 90] it cites a 10 mg/dL decrease. -/
theorem insight_messages (c : Ctx) (r : RawRow) (pre : List RawRow) (y t : RawRow) :
    get_smart_insight none c = "No history available yet." ∧
    get_smart_insight (some [r]) c =
      "This is your first entry. Add more daily values to see comparisons." ∧
    (t.sugar < y.sugar → get_smart_insight (some (pre ++ [y, t])) c =
      "Good progress. Today's sugar is lower than yesterday by " ++
        toString (y.sugar - t.sugar) ++ " mg/dL.") ∧
    (y.sugar < t.sugar → get_smart_insight (some (pre ++ [y, t])) c =
      "Attention needed. Today's sugar is higher than yesterday by " ++
        toString (t.sugar - y.sugar) ++ " mg/dL.") ∧
    (t.sugar = y.sugar → get_smart_insight (some (pre ++ [y, t])) c =
      "Your sugar level is the same as yesterday. Maintain your routine.") ∧
    get_smart_insight (some [⟨"d1", some .random, 100⟩, ⟨"d2", some .random, 90⟩]) c =
      "Good progress. Today's sugar is lower than yesterday by 10 mg/dL." := by
  refine ⟨rfl, rfl, ?_, ?_, ?_, rfl⟩
  · intro h
    simp [get_smart_insight, insightOfLastTwo, normalizeRow, h]
  · intro h
    have h2 : ¬ t.sugar < y.sugar := by omega
    simp [get_smart_insight, insightOfLastTwo, normalizeRow, h, h2]
  · intro h
    simp [get_smart_insight, insightOfLastTwo, normalizeRow, h]

/-- C7 witness: two records 100 then 90 yield the improvement message
citing the 10 mg/dL decrease. -/
theorem insight_messages_witness :
    (90:Int) < 100 ∧
    get_smart_insight
        (some ([] ++ [⟨"d1", some .random, 100⟩, ⟨"d2", some .random, 90⟩])) .fasting =
      "Good progress. Today's sugar is lower than yesterday by " ++
        toString ((100:Int) - 90) ++ " mg/dL." :=
  ⟨by decide,
    (insight_messages .fasting ⟨"x", none, 1⟩ []
        ⟨"d1", some .random, 100⟩ ⟨"d2", some .random, 90⟩).2.2.1 (by decide)⟩

/-- C8: a stored log lacking the context column (every row missing its
reading_type) is repaired in memory to context random on each load path:
normalization, the append write-back, the history read, and the insight
computation; no path raises an error. -/
theorem legacy_context_default (rows : List (String × Int)) (ts : String)
    (v : Int) (c : Ctx) (n : Nat) :
    ((rows.map fun p => RawRow.mk p.1 none p.2).map normalizeRow
        = rows.map fun p => Reading.mk p.1 .random p.2) ∧
    save_sugar_history (some (rows.map fun p => RawRow.mk p.1 none p.2)) ts v c
      = some ((rows.map fun p => RawRow.mk p.1 (some .random) p.2) ++
          [⟨ts, some c, v⟩]) ∧
    get_history_data (some (rows.map fun p => RawRow.mk p.1 none p.2)) n
      = (rows.map fun p => Reading.mk p.1 .random p.2).drop (rows.length - n) ∧
    get_smart_insight (some (rows.map fun p => RawRow.mk p.1 none p.2)) c
      = get_smart_insight (some (rows.map fun p => RawRow.mk p.1 (some .random) p.2)) c := by
  refine ⟨?_, ?_, ?_, ?_⟩
  · simp [normalizeRow]
  · simp [save_sugar_history, rawOfReading, normalizeRow]
  · rw [get_history_data_eq]
    simp [loadNormalized, normalizeRow, Function.comp_def]
  · have hdata : (rows.map fun p => RawRow.mk p.1 none p.2).map normalizeRow
        = (rows.map fun p => RawRow.mk p.1 (some .random) p.2).map normalizeRow := by
      simp [normalizeRow]
    simp only [get_smart_insight, hdata]

/-- C9: every bar of the trend chart is colored by the fixed absolute
band, independent of the entry's context, and at most the 7 most recent
retained entries are charted: below 70 red, 70 to 100 green, above 100
up to 125 orange, above 125 red. -/
theorem trend_fixed_bands (raw : List RawRow) (flt : Option Ctx) :
    (show_sugar_trend (some raw) flt).bars.length ≤ 7 ∧
    ∀ p ∈ (show_sugar_trend (some raw) flt).bars,
      p.2 = trendColor p.1.sugar ∧
      (p.1.sugar < 70 → p.2 = "red") ∧
      (70 ≤ p.1.sugar → p.1.sugar ≤ 100 → p.2 = "green") ∧
      (100 < p.1.sugar → p.1.sugar ≤ 125 → p.2 = "orange") ∧
      (125 < p.1.sugar → p.2 = "red") := by
  have hcolor : ∀ w : Int, (w < 70 → trendColor w = "red") ∧
      (70 ≤ w → w ≤ 100 → trendColor w = "green") ∧
      (100 < w → w ≤ 125 → trendColor w = "orange") ∧
      (125 < w → trendColor w = "red") := by
    intro w
    unfold trendColor
    refine ⟨?_, ?_, ?_, ?_⟩ <;> intros <;> split_ifs <;> first | rfl | omega
  have hbars : ∃ l : List Reading, l.length ≤ 7 ∧
      (show_sugar_trend (some raw) flt).bars = l.map fun r => (r, trendColor r.sugar) := by
    simp only [show_sugar_trend]
    by_cases h : (trendData raw flt).length < 2
    · exact ⟨[], by simp, by simp [h, TrendResult.bars]⟩
    · refine ⟨(trendData raw flt).drop ((trendData raw flt).length - 7), ?_, ?_⟩
      · simp only [List.length_drop]
        omega
      · simp [h, TrendResult.bars]
  obtain ⟨l, hlen, hb⟩ := hbars
  rw [hb]
  refine ⟨by simpa using hlen, ?_⟩
  intro p hp
  obtain ⟨r, _, rfl⟩ := List.mem_map.mp hp
  exact ⟨rfl, (hcolor r.sugar).1, (hcolor r.sugar).2.1, (hcolor r.sugar).2.2.1,
    (hcolor r.sugar).2.2.2⟩

/-- C9 witness: a fasting entry of 60 in a two-entry log is charted with
the fixed-band color red. -/
theorem trend_fixed_bands_witness :
    (((⟨"a", Ctx.fasting, 60⟩ : Reading), "red") ∈
      (show_sugar_trend
        (some [⟨"a", some Ctx.fasting, 60⟩, ⟨"b", some Ctx.fasting, 130⟩]) none).bars) ∧
    "red" = trendColor 60 :=
  ⟨by decide,
    ((trend_fixed_bands [⟨"a", some Ctx.fasting, 60⟩, ⟨"b", some Ctx.fasting, 130⟩]
        none).2 ((⟨"a", Ctx.fasting, 60⟩ : Reading), "red") (by decide)).1⟩

/-- C10: the Recent History status label uses the same fixed absolute
bands as the trend chart, taking only the value and ignoring the stored
context; at a post-lunch reading of 130 the displayed label is High
while the context-aware classifier assigned NORMAL at submission. -/
theorem history_status_fixed_bands (v : Int) :
    (v < 70 → historyStatus v = "🔴 Low") ∧
    (70 ≤ v → v ≤ 100 → historyStatus v = "🟢 Normal") ∧
    (100 < v → v ≤ 125 → historyStatus v = "🟡 Borderline") ∧
    (125 < v → historyStatus v = "🔴 High") ∧
    (historyStatus 130 = "🔴 High" ∧ (classifyBands 130 .post_lunch).status = "NORMAL") := by
  refine ⟨?_, ?_, ?_, ?_, rfl, rfl⟩ <;>
    (intros; unfold historyStatus; split_ifs <;> first | rfl | omega)

/-- C10 witness: at value 130 the displayed label is High. -/
theorem history_status_fixed_bands_witness :
    (125:Int) < 130 ∧ historyStatus 130 = "🔴 High" :=
  ⟨by decide, (history_status_fixed_bands 130).2.2.2.1 (by decide)⟩

end SugarApp
